import Mathlib

/-!
Shallow embedding of the Terraform job subsystem of `terraform-ai-backend`
(files `app/models/terraform_job.py`, `app/schemas/terraform_schema.py`,
`app/services/terraform_service.py`, `app/services/terraform_executor.py`),
together with theorems settling the specification claims about it.

Conventions of the embedding:
- The database session is a list of job records; `db.commit()` / `db.refresh()`
  are identity operations on this pure state.
- Timestamps (`datetime.utcnow()`) are opaque naturals supplied by the
  environment.
- Subprocess execution and filesystem effects are modelled by an explicit
  environment (`ExecEnv`) recording, for each effectful step of one execution
  attempt, the outcome the operating system would deliver.
- Python `HTTPException` is an error value carried in `Except`.
-/

namespace TerraformBackend

/-- `JobStatus` enumeration from `app/models/terraform_job.py`. -/
inductive JobStatus where
  | pending
  | running
  | completed
  | failed
  | cancelled
deriving DecidableEq, Repr

/-- The `.value` of each `JobStatus` member (it is a `str` enum). -/
def JobStatus.value : JobStatus → String
  | .pending => "pending"
  | .running => "running"
  | .completed => "completed"
  | .failed => "failed"
  | .cancelled => "cancelled"

/-- The `terraform_config` JSON object: an association list of string keys.
Only the `"code"` entry is ever read by the executor, so values are strings. -/
def ConfigDict := List (String × String)
deriving DecidableEq, Repr

/-- Python `d.get(key, default)` on the config dictionary. -/
def ConfigDict.getD (d : ConfigDict) (key default_ : String) : String :=
  match List.find? (fun p => p.1 = key) d with
  | some p => p.2
  | none => default_

/-- The `TerraformJob` ORM record (`app/models/terraform_job.py`).
The owner column is declared `user_id` in the model file while the service
layer manipulates it as `customer_id`; the embedding uses one owner field. -/
structure TerraformJob where
  id : Nat
  customer_id : Nat
  job_name : String
  status : JobStatus
  terraform_config : ConfigDict
  command : String
  output_log : Option String
  error_log : Option String
  started_at : Option Nat
  completed_at : Option Nat
deriving DecidableEq, Repr

/-- `HTTPException` as raised by the service layer. -/
structure HTTPException where
  status_code : Nat
  detail : String
deriving DecidableEq, Repr

/-- Request body `TerraformJobCreate` (`app/schemas/terraform_schema.py`). -/
structure TerraformJobCreate where
  job_name : String
  terraform_config : ConfigDict
  command : String
deriving DecidableEq, Repr

/-- Pydantic validation of `TerraformJobCreate`: `job_name` is constrained to
1–200 characters; `terraform_config` is any dict and `command` any string. -/
def TerraformJobCreate.schemaValid (d : TerraformJobCreate) : Bool :=
  1 ≤ d.job_name.length && d.job_name.length ≤ 200

/-- Stage-subprocess result dictionary: `_run_terraform_command` returns a
dict with exactly the keys `returncode`, `stdout`, `stderr`. -/
structure StageResult where
  returncode : Int
  stdout : String
  stderr : String
deriving DecidableEq, Repr

/-- Outcome delivered by the operating system for one `subprocess.run` call:
the process finished, it exceeded the 300-second timeout
(`subprocess.TimeoutExpired`), or launching it raised some other exception
whose text is `msg`. -/
inductive RunOutcome where
  | finished (returncode : Int) (stdout stderr : String)
  | timedOut
  | raised (msg : String)
deriving DecidableEq, Repr

/-- Command line assembled by `_run_terraform_command`:
`["terraform", command]`, then `-auto-approve` when requested for
`apply`/`destroy`, then `-no-color`. -/
def buildCmd (command : String) (auto_approve : Bool) : List String :=
  let cmd := ["terraform", command]
  let cmd := if auto_approve && (command = "apply" || command = "destroy")
    then cmd ++ ["-auto-approve"] else cmd
  cmd ++ ["-no-color"]

/-- `_run_terraform_command` (`app/services/terraform_executor.py`): runs one
stage subprocess and converts every outcome — normal exit, timeout, or launch
exception — into a result dictionary; it never raises. -/
def _run_terraform_command (outcome : RunOutcome) : StageResult :=
  match outcome with
  | .finished rc out err =>
      { returncode := rc, stdout := out, stderr := err }
  | .timedOut =>
      { returncode := 1, stdout := "",
        stderr := "Command timed out after 5 minutes" }
  | .raised msg =>
      { returncode := 1, stdout := "", stderr := msg }

/-- Python `str.capitalize()`: first character upper-cased, rest lower-cased. -/
def pyCapitalize (s : String) : String :=
  match s.data with
  | [] => ""
  | c :: rest => String.mk (c.toUpper :: rest.map Char.toLower)

/-- Environment of one execution attempt: the outcome of each effectful step
`execute_terraform_command` may perform, in program order.
`mkdirFault`/`writeFault` hold the text of an exception raised by
`Path.mkdir` / `Path.write_text` when the filesystem misbehaves;
`rmtreeFault` likewise for the cleanup `shutil.rmtree` (it is only logged). -/
structure ExecEnv where
  mkdirFault : Option String
  writeFault : Option String
  initOutcome : RunOutcome
  stageOutcome : RunOutcome
  rmtreeFault : Option String
  startTime : Nat
  endTime : Nat
deriving Repr

/-- Result of `execute_terraform_command`: the updated job record plus the
list of stage subprocesses actually spawned, in order. -/
structure ExecResult where
  job : TerraformJob
  stagesRun : List String
deriving DecidableEq, Repr

/-- The `finally` block of `execute_terraform_command`: stamps
`completed_at`; a cleanup failure is logged and changes nothing. -/
def execFinally (env : ExecEnv) (j : TerraformJob) : TerraformJob :=
  { j with completed_at := some env.endTime }

/-- The `except` branch of `execute_terraform_command` followed by the
`finally` block: the caught exception text becomes `error_log` and the job is
marked `FAILED`. -/
def execAbsorb (env : ExecEnv) (j : TerraformJob) (msg : String) : TerraformJob :=
  execFinally env { j with status := .failed, error_log := some msg }

/-- `execute_terraform_command` (`app/services/terraform_executor.py`):
runs one attempt for `job` under environment `env`. Every exception raised
inside the attempt is absorbed by the `except` branch into a `FAILED` record;
the function itself never raises. -/
def execute_terraform_command (env : ExecEnv) (job : TerraformJob) : ExecResult :=
  match env.mkdirFault with
  | some m => { job := execAbsorb env job m, stagesRun := [] }
  | none =>
    let terraform_code := job.terraform_config.getD "code" ""
    if terraform_code = "" then
      { job := execAbsorb env job "No Terraform code found in job configuration",
        stagesRun := [] }
    else
      match env.writeFault with
      | some m => { job := execAbsorb env job m, stagesRun := [] }
      | none =>
        let job := { job with status := JobStatus.running,
                              started_at := some env.startTime }
        let init_result := _run_terraform_command env.initOutcome
        if init_result.returncode ≠ 0 then
          { job := execAbsorb env job
              ("Terraform init failed: " ++ init_result.stderr),
            stagesRun := ["init"] }
        else
          let output_log :=
            "=== Terraform Init ===\n" ++ init_result.stdout ++ "\n\n"
          let stage : Option String :=
            if job.command = "plan" then some "plan"
            else if job.command = "apply" then some "apply"
            else if job.command = "destroy" then some "destroy"
            else none
          match stage with
          | none =>
            { job := execAbsorb env job ("Unknown command: " ++ job.command),
              stagesRun := ["init"] }
          | some st =>
            let result := _run_terraform_command env.stageOutcome
            let output_log := output_log ++ "=== Terraform " ++
              pyCapitalize job.command ++ " ===\n" ++ result.stdout ++ "\n"
            if result.returncode = 0 then
              { job := execFinally env
                  { job with status := .completed, output_log := some output_log },
                stagesRun := ["init", st] }
            else
              { job := execFinally env
                  { job with status := .failed, output_log := some output_log,
                             error_log := some result.stderr },
                stagesRun := ["init", st] }

/-- Truthiness of the optional `customer_id` argument: Python
`if customer_id:` is false for `None` and for `0`. -/
def optTruthy : Option Nat → Bool
  | none => false
  | some n => n ≠ 0

/-- Fresh primary key for an insert: one more than the largest id in the
store (auto-increment). -/
def nextId (db : List TerraformJob) : Nat :=
  (db.foldr (fun j m => max m j.id) 0) + 1

/-- `create_terraform_job` (`app/services/terraform_service.py`): constructs
a new record in `PENDING` from the request fields and inserts it. The service
performs no validation of `command` or of `terraform_config`. -/
def create_terraform_job (db : List TerraformJob) (customer_id : Nat)
    (job_data : TerraformJobCreate) : List TerraformJob × TerraformJob :=
  let new_job : TerraformJob :=
    { id := nextId db
      customer_id := customer_id
      job_name := job_data.job_name
      status := JobStatus.pending
      terraform_config := job_data.terraform_config
      command := job_data.command
      output_log := none
      error_log := none
      started_at := none
      completed_at := none }
  (db ++ [new_job], new_job)

/-- `get_terraform_job` (`app/services/terraform_service.py`): query filtered
by id, and additionally by owner only when `customer_id` is truthy; `404` when
the resulting query has no first row. -/
def get_terraform_job (db : List TerraformJob) (job_id : Nat)
    (customer_id : Option Nat := none) : Except HTTPException TerraformJob :=
  let query := db.filter (fun j => j.id = job_id)
  let query := if optTruthy customer_id then
      query.filter (fun j => some j.customer_id = customer_id)
    else query
  match query.head? with
  | some job => .ok job
  | none => .error { status_code := 404, detail := "Terraform job not found" }

/-- Replace the row with `job.id` by `job` (the ORM mutates the mapped row in
place; `db.commit()` persists it). -/
def dbReplace (db : List TerraformJob) (job : TerraformJob) : List TerraformJob :=
  db.map (fun j => if j.id = job.id then job else j)

/-- `execute_terraform_job` (`app/services/terraform_service.py`): looks the
job up, rejects any status other than `PENDING` with a 400, then runs the
attempt; the surrounding `try/except` turns an exception escaping
`execute_terraform_command` into a `FAILED` record, but the embedded attempt
never raises, so only the two pre-execution errors remain. -/
def execute_terraform_job (env : ExecEnv) (db : List TerraformJob)
    (job_id : Nat) : Except HTTPException (List TerraformJob × ExecResult) :=
  match get_terraform_job db job_id none with
  | .error e => .error e
  | .ok job =>
    if job.status ≠ JobStatus.pending then
      .error { status_code := 400,
               detail := "Job cannot be executed. Current status: "
                 ++ job.status.value }
    else
      let r := execute_terraform_command env job
      .ok (dbReplace db r.job, r)

/-- `cancel_terraform_job` (`app/services/terraform_service.py`): legal only
from `PENDING` or `RUNNING`; otherwise a 400 naming the current status and the
record is untouched. On success the status becomes `CANCELLED` and
`completed_at` is stamped; `started_at` is not touched. -/
def cancel_terraform_job (db : List TerraformJob) (job_id : Nat) (now : Nat) :
    Except HTTPException (List TerraformJob × TerraformJob) :=
  match get_terraform_job db job_id none with
  | .error e => .error e
  | .ok job =>
    if job.status ≠ JobStatus.pending ∧ job.status ≠ JobStatus.running then
      .error { status_code := 400,
               detail := "Job cannot be cancelled. Current status: "
                 ++ job.status.value }
    else
      let job := { job with status := JobStatus.cancelled,
                            completed_at := some now }
      .ok (dbReplace db job, job)

/-- `delete_terraform_job` (`app/services/terraform_service.py`): looks the
job up (404 when absent) and removes the row. There is no status check of any
kind before the removal. -/
def delete_terraform_job (db : List TerraformJob) (job_id : Nat) :
    Except HTTPException (List TerraformJob) :=
  match get_terraform_job db job_id none with
  | .error e => .error e
  | .ok job => .ok (db.filter (fun j => j.id ≠ job.id))

/-- One invocation of a public service operation, with the environment data
(timestamps, subprocess outcomes) it consumes. -/
inductive Op where
  | create (customer_id : Nat) (job_data : TerraformJobCreate)
  | execute (env : ExecEnv) (job_id : Nat)
  | cancel (job_id : Nat) (now : Nat)
  | delete (job_id : Nat)

/-- Apply one operation to the store; a rejected operation (synchronous
exception) leaves the store unchanged. -/
def applyOp (db : List TerraformJob) : Op → List TerraformJob
  | .create customer_id job_data => (create_terraform_job db customer_id job_data).1
  | .execute env job_id =>
      match execute_terraform_job env db job_id with
      | .ok (db', _) => db'
      | .error _ => db
  | .cancel job_id now =>
      match cancel_terraform_job db job_id now with
      | .ok (db', _) => db'
      | .error _ => db
  | .delete job_id =>
      match delete_terraform_job db job_id with
      | .ok db' => db'
      | .error _ => db

/-- The store reached from the empty store by a sequence of operations. -/
def runOps (ops : List Op) : List TerraformJob :=
  ops.foldl applyOp []

/-! Concrete records used by counterexamples and witnesses. -/

/-- A schema-valid creation request whose `command` is none of
`plan`/`apply`/`destroy` and whose config carries no `code` entry. -/
def badCreateRequest : TerraformJobCreate :=
  { job_name := "demo", terraform_config := [], command := "frobnicate" }

/-- The creation request of Scenario A. -/
def demoRequest : TerraformJobCreate :=
  { job_name := "demo"
    terraform_config := [("code", "resource \x22null_resource\x22 \x22x\x22 \x7b\x7d")]
    command := "plan" }

/-- A pending job with a non-empty `code` entry and command `plan`. -/
def pendingJob : TerraformJob :=
  { id := 1, customer_id := 1, job_name := "demo", status := .pending
    terraform_config := [("code", "resource")], command := "plan"
    output_log := none, error_log := none
    started_at := none, completed_at := none }

/-- A pending job whose config has no `code` entry. -/
def codelessJob : TerraformJob :=
  { id := 1, customer_id := 1, job_name := "empty", status := .pending
    terraform_config := [], command := "plan"
    output_log := none, error_log := none
    started_at := none, completed_at := none }

/-- A job currently in `RUNNING`. -/
def runningJob : TerraformJob :=
  { id := 1, customer_id := 1, job_name := "busy", status := .running
    terraform_config := [("code", "resource")], command := "apply"
    output_log := none, error_log := none
    started_at := some 1, completed_at := none }

/-- A job already in the terminal state `COMPLETED`. -/
def completedJob : TerraformJob :=
  { id := 1, customer_id := 1, job_name := "done", status := .completed
    terraform_config := [("code", "resource")], command := "plan"
    output_log := some "ok", error_log := none
    started_at := some 1, completed_at := some 2 }

/-- An environment in which every filesystem step succeeds, `init` fails with
stderr `"boom"`, and the requested stage would succeed. -/
def initFailEnv : ExecEnv :=
  { mkdirFault := none, writeFault := none
    initOutcome := .finished 1 "" "boom"
    stageOutcome := .finished 0 "" ""
    rmtreeFault := none, startTime := 10, endTime := 20 }

/-- An environment in which `init` succeeds and the requested stage fails
with stderr `"plan blew up"`. -/
def stageFailEnv : ExecEnv :=
  { mkdirFault := none, writeFault := none
    initOutcome := .finished 0 "init ok" ""
    stageOutcome := .finished 1 "" "plan blew up"
    rmtreeFault := none, startTime := 10, endTime := 20 }

/-- An environment in which both stages succeed. -/
def happyEnv : ExecEnv :=
  { mkdirFault := none, writeFault := none
    initOutcome := .finished 0 "init output" ""
    stageOutcome := .finished 0 "plan output" ""
    rmtreeFault := none, startTime := 10, endTime := 20 }

/-! Helper lemmas about lookups and the executor. -/

theorem head?_some_mem {α : Type} {l : List α} {a : α}
    (h : l.head? = some a) : a ∈ l := by
  cases l with
  | nil => simp at h
  | cons x t =>
    simp only [List.head?] at h
    injection h with h
    simp [h]

theorem get_ok_mem {db : List TerraformJob} {job_id : Nat}
    {c : Option Nat} {j : TerraformJob}
    (h : get_terraform_job db job_id c = .ok j) :
    j ∈ db ∧ j.id = job_id := by
  simp only [get_terraform_job] at h
  split at h
  · rename_i found hq
    injection h with h
    subst h
    split at hq
    · have := head?_some_mem hq
      simp only [List.mem_filter, decide_eq_true_eq] at this
      exact ⟨this.1.1, this.1.2⟩
    · have := head?_some_mem hq
      simp only [List.mem_filter, decide_eq_true_eq] at this
      exact this
  · exact absurd h (by simp)

theorem get_error_404 {db : List TerraformJob} {job_id : Nat}
    {c : Option Nat} {e : HTTPException}
    (h : get_terraform_job db job_id c = .error e) :
    e = { status_code := 404, detail := "Terraform job not found" } := by
  simp only [get_terraform_job] at h
  split at h
  · exact absurd h (by simp)
  · injection h with h
    exact h.symm

/-- Every execution attempt ends in `COMPLETED` or in `FAILED` with a set
`error_log`; the attempt always stamps `completed_at`. -/
theorem execute_command_terminal (env : ExecEnv) (job : TerraformJob) :
    ((execute_terraform_command env job).job.status = .completed ∨
      ((execute_terraform_command env job).job.status = .failed ∧
        (execute_terraform_command env job).job.error_log ≠ none)) ∧
    (execute_terraform_command env job).job.completed_at = some env.endTime := by
  obtain ⟨mk, wr, io, so, rm, st, et⟩ := env
  cases mk with
  | some m => simp [execute_terraform_command, execAbsorb, execFinally]
  | none =>
    by_cases hcode : ConfigDict.getD job.terraform_config "code" "" = ""
    · simp [execute_terraform_command, execAbsorb, execFinally, hcode]
    · cases wr with
      | some m => simp [execute_terraform_command, execAbsorb, execFinally, hcode]
      | none =>
        by_cases hinit : (_run_terraform_command io).returncode = 0
        · by_cases hp : job.command = "plan"
          · by_cases hs : (_run_terraform_command so).returncode = 0 <;>
              simp [execute_terraform_command, execAbsorb, execFinally,
                hcode, hinit, hp, hs]
          · by_cases ha : job.command = "apply"
            · by_cases hs : (_run_terraform_command so).returncode = 0 <;>
                simp [execute_terraform_command, execAbsorb, execFinally,
                  hcode, hinit, hp, ha, hs]
            · by_cases hd : job.command = "destroy"
              · by_cases hs : (_run_terraform_command so).returncode = 0 <;>
                  simp [execute_terraform_command, execAbsorb, execFinally,
                    hcode, hinit, hp, ha, hd, hs]
              · simp [execute_terraform_command, execAbsorb, execFinally,
                  hcode, hinit, hp, ha, hd]
        · simp [execute_terraform_command, execAbsorb, execFinally, hcode, hinit]

/-! Claim theorems. -/

/-- C1 counterexample: a schema-valid creation request whose command is none
of `plan`/`apply`/`destroy` and whose config carries no `code` entry is not
rejected — `create_terraform_job` returns a new job in `PENDING` instead of
failing with a validation error. -/
theorem create_no_validation_cex :
    badCreateRequest.schemaValid = true ∧
    ¬(badCreateRequest.command = "plan" ∨ badCreateRequest.command = "apply" ∨
      badCreateRequest.command = "destroy") ∧
    ConfigDict.getD badCreateRequest.terraform_config "code" "" = "" ∧
    (create_terraform_job [] 7 badCreateRequest).2.status = JobStatus.pending := by
  decide

/-- C1 (amended): `create_terraform_job` performs no validation of `command`
or of the config's `code` entry: for every request it unconditionally inserts
and returns a new job in `PENDING` carrying the request's fields verbatim,
with no log or timestamp set. -/
theorem create_terraform_job_spec (db : List TerraformJob) (customer_id : Nat)
    (job_data : TerraformJobCreate) :
    (create_terraform_job db customer_id job_data).2.status = JobStatus.pending ∧
    (create_terraform_job db customer_id job_data).2.command = job_data.command ∧
    (create_terraform_job db customer_id job_data).2.terraform_config =
      job_data.terraform_config ∧
    (create_terraform_job db customer_id job_data).2.customer_id = customer_id ∧
    (create_terraform_job db customer_id job_data).2.job_name = job_data.job_name ∧
    (create_terraform_job db customer_id job_data).2.started_at = none ∧
    (create_terraform_job db customer_id job_data).2.completed_at = none ∧
    (create_terraform_job db customer_id job_data).1 =
      db ++ [(create_terraform_job db customer_id job_data).2] :=
  ⟨rfl, rfl, rfl, rfl, rfl, rfl, rfl, rfl⟩

/-- C5: executing a job whose config lacks a non-empty `code` entry (with the
workspace directory creation succeeding) marks it `FAILED`, records the
missing-configuration message as `error_log`, and spawns no subprocess. -/
theorem execute_missing_code_spec (env : ExecEnv) (job : TerraformJob)
    (hmk : env.mkdirFault = none)
    (hcode : ConfigDict.getD job.terraform_config "code" "" = "") :
    (execute_terraform_command env job).job.status = JobStatus.failed ∧
    (execute_terraform_command env job).job.error_log =
      some "No Terraform code found in job configuration" ∧
    (execute_terraform_command env job).stagesRun = [] := by
  simp [execute_terraform_command, hmk, hcode, execAbsorb, execFinally]

/-- C5 witness: the codeless job under the fault-free environment. -/
theorem execute_missing_code_witness :
    (execute_terraform_command happyEnv codelessJob).job.status = JobStatus.failed ∧
    (execute_terraform_command happyEnv codelessJob).job.error_log =
      some "No Terraform code found in job configuration" ∧
    (execute_terraform_command happyEnv codelessJob).stagesRun = [] :=
  execute_missing_code_spec happyEnv codelessJob rfl rfl

/-- C7: cancelling a job whose status is `COMPLETED`, `FAILED` or `CANCELLED`
always fails with a 400 naming the current status, and the store — hence
every field of the record — is left unchanged. -/
theorem cancel_terminal_spec (db : List TerraformJob) (job_id now : Nat)
    (job : TerraformJob)
    (hget : get_terraform_job db job_id none = .ok job)
    (hterm : job.status = JobStatus.completed ∨ job.status = JobStatus.failed ∨
      job.status = JobStatus.cancelled) :
    cancel_terraform_job db job_id now =
      .error { status_code := 400,
               detail := "Job cannot be cancelled. Current status: "
                 ++ job.status.value } ∧
    applyOp db (Op.cancel job_id now) = db := by
  have hc : job.status ≠ JobStatus.pending ∧ job.status ≠ JobStatus.running := by
    rcases hterm with h | h | h <;> simp [h]
  have h1 : cancel_terraform_job db job_id now =
      .error { status_code := 400,
               detail := "Job cannot be cancelled. Current status: "
                 ++ job.status.value } := by
    simp [cancel_terraform_job, hget, hc]
  exact ⟨h1, by simp [applyOp, h1]⟩

/-- C7 witness: cancelling the already-completed job. -/
theorem cancel_terminal_witness :
    cancel_terraform_job [completedJob] 1 99 =
      .error { status_code := 400,
               detail := "Job cannot be cancelled. Current status: completed" } ∧
    applyOp [completedJob] (Op.cancel 1 99) = [completedJob] := by
  exact cancel_terminal_spec [completedJob] 1 99 completedJob rfl (Or.inl rfl)

/-- C9: the lookup applies its ownership filter only when the supplied owner
id is truthy. With owner id `0` the lookup coincides with the unfiltered one:
it returns the first job matching the id, whatever its owner, and raises 404
exactly when the id is absent; with a non-zero owner id a returned job always
belongs to that owner. -/
theorem get_owner_zero_spec (db : List TerraformJob) (job_id : Nat) :
    get_terraform_job db job_id (some 0) = get_terraform_job db job_id none ∧
    (∀ j, (db.filter (fun x => x.id = job_id)).head? = some j →
      get_terraform_job db job_id (some 0) = .ok j) ∧
    ((db.filter (fun x => x.id = job_id)).head? = none →
      get_terraform_job db job_id (some 0) =
        .error { status_code := 404, detail := "Terraform job not found" }) ∧
    (∀ owner_id j, owner_id ≠ 0 →
      get_terraform_job db job_id (some owner_id) = .ok j →
      j.customer_id = owner_id) := by
  refine ⟨?_, ?_, ?_, ?_⟩
  · simp [get_terraform_job, optTruthy]
  · intro j hj
    simp [get_terraform_job, optTruthy, hj]
  · intro hnone
    simp [get_terraform_job, optTruthy, hnone]
  · intro owner_id j howner hok
    simp only [get_terraform_job] at hok
    split at hok
    · rename_i found hq
      injection hok with hok
      subst hok
      rw [if_pos (by simp [optTruthy, howner])] at hq
      have := head?_some_mem hq
      simp only [List.mem_filter, decide_eq_true_eq] at this
      have h2 := this.2
      injection h2
    · exact absurd hok (by simp)

/-- C9 witness: owner id `0` retrieves a job owned by customer 5, and the
truthy owner id 6 does not retrieve it. -/
theorem get_owner_zero_witness :
    get_terraform_job [completedJob] 1 (some 0) = .ok completedJob :=
  (get_owner_zero_spec [completedJob] 1).2.1 completedJob rfl

/-- C10: `_run_terraform_command` is total over every subprocess outcome and
returns exactly the `returncode`/`stdout`/`stderr` triple: a timeout yields
returncode 1, empty stdout and the exact timeout message; any other launch
failure yields returncode 1, empty stdout and the exception text; a finished
process yields its own exit code and captured streams. -/
theorem run_terraform_command_total (outcome : RunOutcome) :
    (outcome = RunOutcome.timedOut →
      _run_terraform_command outcome =
        { returncode := 1, stdout := "",
          stderr := "Command timed out after 5 minutes" }) ∧
    (∀ msg, outcome = RunOutcome.raised msg →
      _run_terraform_command outcome =
        { returncode := 1, stdout := "", stderr := msg }) ∧
    (∀ rc out err, outcome = RunOutcome.finished rc out err →
      _run_terraform_command outcome =
        { returncode := rc, stdout := out, stderr := err }) :=
  ⟨fun h => by subst h; rfl,
   fun msg h => by subst h; rfl,
   fun rc out err h => by subst h; rfl⟩

/-- C10 witness: the timeout outcome. -/
theorem run_terraform_command_total_witness :
    _run_terraform_command RunOutcome.timedOut =
      { returncode := 1, stdout := "",
        stderr := "Command timed out after 5 minutes" } :=
  (run_terraform_command_total RunOutcome.timedOut).1 rfl

/-- C3 counterexample: deleting a job whose status is `RUNNING` succeeds
immediately — the record is removed with no cancellation request, no wait
and no `Conflict` error. -/
theorem delete_running_cex :
    runningJob.status = JobStatus.running ∧
    delete_terraform_job [runningJob] 1 = .ok [] :=
  ⟨rfl, rfl⟩

/-- C3 (amended): `delete_terraform_job` performs no status check at all: it
fails only with 404 when the id is absent, and otherwise removes the record
unconditionally, whatever its status — including `RUNNING` — with no
cancellation step, no bounded wait and no `Conflict` error. -/
theorem delete_terraform_job_spec (db : List TerraformJob) (job_id : Nat) :
    (∀ e, delete_terraform_job db job_id = .error e →
      e = { status_code := 404, detail := "Terraform job not found" }) ∧
    (∀ db', delete_terraform_job db job_id = .ok db' →
      db' = db.filter (fun j => j.id ≠ job_id)) := by
  constructor
  · intro e he
    cases hg : get_terraform_job db job_id none with
    | error e2 =>
      simp only [delete_terraform_job, hg] at he
      injection he with he
      subst he
      exact get_error_404 hg
    | ok job =>
      simp [delete_terraform_job, hg] at he
  · intro db' hdb
    cases hg : get_terraform_job db job_id none with
    | error e2 =>
      simp [delete_terraform_job, hg] at hdb
    | ok job =>
      have hid := (get_ok_mem hg).2
      simp only [delete_terraform_job, hg] at hdb
      injection hdb with hdb
      subst hdb
      rw [hid]

/-- C3 witness: deleting the running job through the general statement. -/
theorem delete_terraform_job_witness :
    ([] : List TerraformJob) = [runningJob].filter (fun j => j.id ≠ 1) :=
  (delete_terraform_job_spec [runningJob] 1).2 [] rfl

/-- C4 counterexample: when the `init` stage fails with stderr `"boom"`, the
job is `FAILED` but its `error_log` is not the captured stderr: it is the
prefixed text `"Terraform init failed: boom"`. -/
theorem init_failure_error_log_cex :
    (_run_terraform_command initFailEnv.initOutcome).stderr = "boom" ∧
    (execute_terraform_command initFailEnv pendingJob).job.status =
      JobStatus.failed ∧
    (execute_terraform_command initFailEnv pendingJob).job.error_log ≠
      some "boom" ∧
    (execute_terraform_command initFailEnv pendingJob).job.error_log =
      some "Terraform init failed: boom" := by
  decide

/-- C4 (amended): a non-zero exit of the requested `plan`/`apply`/`destroy`
stage yields `FAILED` with `error_log` equal to exactly that stage's captured
stderr; a non-zero exit of the `init` stage yields `FAILED` with `error_log`
equal to the captured stderr prefixed by `"Terraform init failed: "`. -/
theorem stage_failure_error_log (env : ExecEnv) (job : TerraformJob)
    (hmk : env.mkdirFault = none) (hw : env.writeFault = none)
    (hcode : ConfigDict.getD job.terraform_config "code" "" ≠ "") :
    ((_run_terraform_command env.initOutcome).returncode ≠ 0 →
      (execute_terraform_command env job).job.status = JobStatus.failed ∧
      (execute_terraform_command env job).job.error_log =
        some ("Terraform init failed: "
          ++ (_run_terraform_command env.initOutcome).stderr)) ∧
    ((_run_terraform_command env.initOutcome).returncode = 0 →
      (_run_terraform_command env.stageOutcome).returncode ≠ 0 →
      (job.command = "plan" ∨ job.command = "apply" ∨ job.command = "destroy") →
      (execute_terraform_command env job).job.status = JobStatus.failed ∧
      (execute_terraform_command env job).job.error_log =
        some (_run_terraform_command env.stageOutcome).stderr) := by
  constructor
  · intro hinit
    simp [execute_terraform_command, hmk, hw, hcode, hinit, execAbsorb,
      execFinally]
  · intro hinit hstage hcmd
    rcases hcmd with h | h | h <;>
      simp [execute_terraform_command, hmk, hw, hcode, hinit, hstage, h,
        execAbsorb, execFinally,
        show "apply" ≠ "plan" from by decide,
        show "destroy" ≠ "plan" from by decide,
        show "destroy" ≠ "apply" from by decide]

/-- C4 witness: the plan stage failing with stderr `"plan blew up"`. -/
theorem stage_failure_error_log_witness :
    (execute_terraform_command stageFailEnv pendingJob).job.status =
      JobStatus.failed ∧
    (execute_terraform_command stageFailEnv pendingJob).job.error_log =
      some "plan blew up" := by
  exact (stage_failure_error_log stageFailEnv pendingJob rfl rfl (by decide)).2
    rfl (by decide) (Or.inl rfl)

/-- C8: a job created with command `plan` whose `init` and `plan` stages both
exit with code 0 ends `COMPLETED`, and its `output_log` is exactly the init
section followed by the plan section. -/
theorem scenario_a_spec (db : List TerraformJob) (customer_id : Nat)
    (job_data : TerraformJobCreate) (env : ExecEnv)
    (initOut initErr planOut planErr : String)
    (hcmd : job_data.command = "plan")
    (hcode : ConfigDict.getD job_data.terraform_config "code" "" ≠ "")
    (hmk : env.mkdirFault = none) (hw : env.writeFault = none)
    (hinit : env.initOutcome = RunOutcome.finished 0 initOut initErr)
    (hstage : env.stageOutcome = RunOutcome.finished 0 planOut planErr) :
    (create_terraform_job db customer_id job_data).2.status =
      JobStatus.pending ∧
    (execute_terraform_command env
      (create_terraform_job db customer_id job_data).2).job.status =
      JobStatus.completed ∧
    (execute_terraform_command env
      (create_terraform_job db customer_id job_data).2).job.output_log =
      some (("=== Terraform Init ===\n" ++ initOut ++ "\n\n")
        ++ ("=== Terraform Plan ===\n" ++ planOut ++ "\n")) := by
  have hcap : pyCapitalize "plan" = "Plan" := by decide
  refine ⟨rfl, ?_, ?_⟩
  · simp [execute_terraform_command, create_terraform_job, hmk, hw, hcode,
      hcmd, hinit, hstage, _run_terraform_command, execFinally, hcap,
      String.append_assoc]
  · simp [execute_terraform_command, create_terraform_job, hmk, hw, hcode,
      hcmd, hinit, hstage, _run_terraform_command, execFinally, hcap,
      String.append_assoc]
    rw [← String.append_assoc "\n\n" "=== Terraform Plan ===\n" (planOut ++ "\n"),
      show ("\n\n" : String) ++ "=== Terraform Plan ===\n" =
        "\n\n=== Terraform Plan ===\n" from by decide]

/-- C8 witness: Scenario A on the demo request under the happy environment. -/
theorem scenario_a_witness :
    (create_terraform_job [] 1 demoRequest).2.status = JobStatus.pending ∧
    (execute_terraform_command happyEnv
      (create_terraform_job [] 1 demoRequest).2).job.status =
      JobStatus.completed ∧
    (execute_terraform_command happyEnv
      (create_terraform_job [] 1 demoRequest).2).job.output_log =
      some "=== Terraform Init ===\ninit output\n\n=== Terraform Plan ===\nplan output\n" := by
  exact scenario_a_spec [] 1 demoRequest happyEnv "init output" "" "plan output" ""
    rfl (by decide) rfl rfl rfl rfl

/-- C6: once a `PENDING` job's execution attempt has begun, `execute` always
returns normally — every execution-time fault of the environment is absorbed
into a `FAILED` record with `error_log` set (success yielding `COMPLETED`) —
and the only synchronous exceptions are the pre-execution ones: 404 when the
job id is unknown and 400 when the job is not `PENDING`. -/
theorem execute_faults_absorbed (env : ExecEnv) (db : List TerraformJob)
    (job_id : Nat) :
    (∀ e, execute_terraform_job env db job_id = .error e →
      (e = { status_code := 404, detail := "Terraform job not found" } ∧
        get_terraform_job db job_id none = .error e) ∨
      (∃ job, get_terraform_job db job_id none = .ok job ∧
        job.status ≠ JobStatus.pending ∧
        e = { status_code := 400,
              detail := "Job cannot be executed. Current status: "
                ++ job.status.value })) ∧
    (∀ job, get_terraform_job db job_id none = .ok job →
      job.status = JobStatus.pending →
      ∃ r, execute_terraform_job env db job_id = .ok (dbReplace db r.job, r) ∧
        (r.job.status = JobStatus.completed ∨
          (r.job.status = JobStatus.failed ∧ r.job.error_log ≠ none))) := by
  constructor
  · intro e he
    cases hg : get_terraform_job db job_id none with
    | error e2 =>
      simp only [execute_terraform_job, hg] at he
      injection he with he
      subst he
      exact Or.inl ⟨get_error_404 hg, rfl⟩
    | ok job =>
      by_cases hp : job.status = JobStatus.pending
      · simp [execute_terraform_job, hg, hp] at he
      · simp only [execute_terraform_job, hg, if_pos hp] at he
        injection he with he
        subst he
        exact Or.inr ⟨job, rfl, hp, rfl⟩
  · intro job hg hp
    refine ⟨execute_terraform_command env job, ?_,
      (execute_command_terminal env job).1⟩
    simp [execute_terraform_job, hg, hp]

/-- C6 witness: the pending demo job under the happy environment. -/
theorem execute_faults_absorbed_witness :
    ∃ r, execute_terraform_job happyEnv [pendingJob] 1 =
        .ok (dbReplace [pendingJob] r.job, r) ∧
      (r.job.status = JobStatus.completed ∨
        (r.job.status = JobStatus.failed ∧ r.job.error_log ≠ none)) :=
  (execute_faults_absorbed happyEnv [pendingJob] 1).2 pendingJob rfl rfl

/-- The demo job after Scenario A's create and execute. -/
def executedDemoJob : TerraformJob :=
  { id := 1, customer_id := 1, job_name := "demo"
    status := .completed
    terraform_config := demoRequest.terraform_config
    command := "plan"
    output_log :=
      some "=== Terraform Init ===\ninit output\n\n=== Terraform Plan ===\nplan output\n"
    error_log := none
    started_at := some 10, completed_at := some 20 }

theorem mem_dbReplace {db : List TerraformJob} {j' x : TerraformJob}
    (h : x ∈ dbReplace db j') : x = j' ∨ x ∈ db := by
  simp only [dbReplace, List.mem_map] at h
  obtain ⟨y, hy, hx⟩ := h
  by_cases hid : y.id = j'.id
  · left
    rw [← hx, if_pos hid]
  · right
    rw [← hx, if_neg hid]
    exact hy

theorem execute_ok_shape {env : ExecEnv} {db : List TerraformJob}
    {job_id : Nat} {p : List TerraformJob × ExecResult}
    (h : execute_terraform_job env db job_id = .ok p) :
    p.1 = dbReplace db p.2.job ∧
    (p.2.job.status = JobStatus.completed ∨
      p.2.job.status = JobStatus.failed) := by
  cases hg : get_terraform_job db job_id none with
  | error e => simp [execute_terraform_job, hg] at h
  | ok job =>
    by_cases hp : job.status = JobStatus.pending
    · simp only [execute_terraform_job, hg,
        if_neg (show ¬(job.status ≠ JobStatus.pending) from fun hn => hn hp)] at h
      injection h with h
      subst h
      refine ⟨rfl, ?_⟩
      rcases (execute_command_terminal env job).1 with hc | hc
      · exact Or.inl hc
      · exact Or.inr hc.1
    · simp [execute_terraform_job, hg, hp] at h

theorem cancel_ok_shape {db : List TerraformJob} {job_id now : Nat}
    {p : List TerraformJob × TerraformJob}
    (h : cancel_terraform_job db job_id now = .ok p) :
    p.1 = dbReplace db p.2 ∧ p.2.status = JobStatus.cancelled := by
  cases hg : get_terraform_job db job_id none with
  | error e => simp [cancel_terraform_job, hg] at h
  | ok job =>
    by_cases hc : job.status ≠ JobStatus.pending ∧ job.status ≠ JobStatus.running
    · simp [cancel_terraform_job, hg, hc] at h
    · simp only [cancel_terraform_job, hg, if_neg hc] at h
      injection h with h
      subst h
      exact ⟨rfl, rfl⟩

theorem applyOp_preserves (db : List TerraformJob) (op : Op)
    (h : ∀ j ∈ db, j.started_at ≠ none → j.status ≠ JobStatus.pending) :
    ∀ j ∈ applyOp db op, j.started_at ≠ none → j.status ≠ JobStatus.pending := by
  intro j hj
  cases op with
  | create customer_id job_data =>
    simp only [applyOp, create_terraform_job] at hj
    rcases List.mem_append.1 hj with hmem | hmem
    · exact h j hmem
    · simp only [List.mem_singleton] at hmem
      subst hmem
      intro hs
      simp at hs
  | execute env job_id =>
    simp only [applyOp] at hj
    split at hj
    · rename_i db' r hx
      obtain ⟨hdb, hstat⟩ := execute_ok_shape hx
      dsimp only at hdb
      subst hdb
      rcases mem_dbReplace hj with rfl | hmem
      · intro _
        rcases hstat with hs | hs <;> dsimp only at hs <;> simp [hs]
      · exact h j hmem
    · exact h j hj
  | cancel job_id now =>
    simp only [applyOp] at hj
    split at hj
    · rename_i db' job' hx
      obtain ⟨hdb, hstat⟩ := cancel_ok_shape hx
      dsimp only at hdb hstat
      subst hdb
      rcases mem_dbReplace hj with rfl | hmem
      · intro _
        simp [hstat]
      · exact h j hmem
    · exact h j hj
  | delete job_id =>
    simp only [applyOp] at hj
    split at hj
    · rename_i db' hx
      cases hg : get_terraform_job db job_id none with
      | error e => simp [delete_terraform_job, hg] at hx
      | ok job =>
        simp only [delete_terraform_job, hg] at hx
        injection hx with hx
        subst hx
        exact h j (List.mem_of_mem_filter hj)
    · exact h j hj

/-- C2 counterexample: create a job, then cancel it while `PENDING`: the
resulting record is `CANCELLED` with `started_at` still unset, so the
claimed equivalence (`started_at` set iff status is not `PENDING`) fails. -/
theorem cancel_pending_started_at_cex :
    (runOps [Op.create 1 demoRequest, Op.cancel 1 5]).map
      (fun j => (j.status, j.started_at, j.completed_at)) =
      [(JobStatus.cancelled, none, some 5)] := by
  decide

/-- C2 (amended): across every store reachable through the service
operations (create, execute, cancel, delete), `started_at` is set only if
the job's status is not `PENDING`; the converse direction is false —
cancelling a `PENDING` job yields `CANCELLED` with `started_at` unset. -/
theorem started_at_invariant (ops : List Op) :
    ∀ j ∈ runOps ops, j.started_at ≠ none → j.status ≠ JobStatus.pending := by
  suffices h : ∀ db,
      (∀ j ∈ db, j.started_at ≠ none → j.status ≠ JobStatus.pending) →
      ∀ j ∈ List.foldl applyOp db ops,
        j.started_at ≠ none → j.status ≠ JobStatus.pending by
    exact h [] (by simp)
  induction ops with
  | nil =>
    intro db hdb
    simpa using hdb
  | cons op rest ih =>
    intro db hdb
    exact ih (applyOp db op) (applyOp_preserves db op hdb)

/-- C2 witness: the executed demo job, reached by create-then-execute, has a
set `started_at` and a non-`PENDING` status. -/
theorem started_at_invariant_witness :
    executedDemoJob.status ≠ JobStatus.pending :=
  started_at_invariant [Op.create 1 demoRequest, Op.execute happyEnv 1]
    executedDemoJob (by decide) (by decide)

end TerraformBackend
